import Mathlib

/-
Verification of the SE05x T=1-style block protocol engine in
src/halse_se05x.c (libifdse).

Shallow embedding conventions:
* Bytes on the wire are natural numbers; the CRC and XOR routines reduce
  their inputs modulo 256 exactly where the C types (unsigned char,
  uint8_t) guarantee byte range.
* The I2C bus is modelled by `Env`: `rx` is the stream of bytes the
  device will deliver to reads (a read of n bytes succeeds iff n bytes
  remain, consuming them), `wr` is the list of results the bus returns
  for successive writes (an exhausted list means every further write
  succeeds with 0), and `sent` records every block written, in order.
  The guard-time sleeps and the NACK-retry wrapper of hali2c are timing
  concerns with no effect on the exchanged bytes and are not modelled.
* `struct halse_se05x_dev`'s transfer state is `DevState`.  The tx
  buffer together with `txlen` is modelled as the list `txbuf` of the
  `txlen` valid bytes (the C code always rewrites the prefix it then
  sends or caches); likewise `rxbuf` is the block received last.
* `int` return values are `Int` (0 success, -1 generic error,
  -ETIMEDOUT for the exhausted retransmit).
* The tail recursion of `halse_se05x_recv_block` (on WTX and on
  retransmit) is compiled to a step function plus a fuel-indexed loop;
  each iteration consumes at least 5 bytes of `rx`, so fuel
  `rx.length` is sufficient, and at fuel 0 the loop returns exactly
  what the C code returns when the 5-byte read fails (which is the only
  reachable situation there).  The same scheme is used for the two
  loops of `halse_se05x_xfer`.
-/

/-! ### Constants from halse_se05x.c -/

def SE05X_NAD : Nat := 0x5A

def HOST_NAD : Nat := 0xA5

def SIZE_PROLOGUE : Nat := 3

def SIZE_INF_MAX : Nat := 254

def SIZE_EPILOGUE : Nat := 2

def I_BLOCK : Nat := 0x00

def I_BLOCK_MASK : Nat := 0x80

def R_BLOCK : Nat := 0x80

def R_BLOCK_MASK : Nat := 0xC0

def S_BLOCK : Nat := 0xC0

def S_BLOCK_MASK : Nat := 0xC0

def CMD_REQ : Nat := 0

def CMD_RES : Nat := 0x20

def CMD_REQRES_MASK : Nat := 0x20

def CMD_WTX : Nat := 0x03

def CMD_TYPE_MASK : Nat := 0x1F

def CMD_ERROR_MASK : Nat := 0x03

def ETIMEDOUT : Int := 110

/-! ### PCB classification helpers -/

def is_i_block (pcb : Nat) : Bool := pcb &&& I_BLOCK_MASK == I_BLOCK

def is_r_block (pcb : Nat) : Bool := pcb &&& R_BLOCK_MASK == R_BLOCK

def is_r_block_with_error (pcb : Nat) : Bool :=
  is_r_block pcb && pcb &&& CMD_ERROR_MASK != 0

def is_s_block (pcb : Nat) : Bool := pcb &&& S_BLOCK_MASK == S_BLOCK

def is_s_block_request (pcb : Nat) : Bool :=
  is_s_block pcb && pcb &&& CMD_REQRES_MASK == CMD_REQ

/-! ### CRC-16/X.25 and the ATR XOR checksum -/

/-- swap_uint16 from helpers.h: `(v << 8) | (v >> 8)` truncated to 16 bits. -/
def swap_uint16 (v : Nat) : Nat := ((v <<< 8) ||| (v >>> 8)) % 65536

/-- One shift step of the CRC inner loop. -/
def crc_shift (crc : Nat) : Nat :=
  if crc &&& 1 == 1 then (crc >>> 1) ^^^ 0x8408 else crc >>> 1

/-- The 8-fold inner loop of halse_se05x_calculate_crc. -/
def crc_bits : Nat → Nat → Nat
  | crc, 0 => crc
  | crc, b + 1 => crc_bits (crc_shift crc) b

/-- halse_se05x_calculate_crc: fold the bytes, final xor 0xFFFF, byte swap. -/
def halse_se05x_calculate_crc (buf : List Nat) : Nat :=
  swap_uint16 ((buf.foldl (fun crc b => crc_bits (crc ^^^ (b % 256)) 8) 0xFFFF) ^^^ 0xFFFF)

/-- halse_se05x_calculate_xor: XOR of all bytes. -/
def halse_se05x_calculate_xor (buf : List Nat) : Nat :=
  buf.foldl (fun v b => v ^^^ (b % 256)) 0

/-! ### Bus environment and device state -/

structure Env where
  rx : List Nat
  wr : List Int
  sent : List (List Nat)
deriving DecidableEq

structure DevState where
  n_s : Nat
  n_r : Nat
  txbuf : List Nat
  txretransmit : Bool
  rxbuf : List Nat
deriving DecidableEq

/-- halse_se05x_write_i2c (guard time and retry abstracted away). -/
def halse_se05x_write_i2c (env : Env) (buf : List Nat) : Int × Env :=
  (env.wr.headD 0, { env with wr := env.wr.tail, sent := env.sent ++ [buf] })

/-- halse_se05x_read_i2c: reading n bytes succeeds iff n bytes remain. -/
def halse_se05x_read_i2c (env : Env) (n : Nat) : Option (List Nat × Env) :=
  if n ≤ env.rx.length then some (env.rx.take n, { env with rx := env.rx.drop n })
  else none

/-- The second (INF) read of recv_block, skipped when LEN = 0. -/
def read_inf (env : Env) (n : Nat) : Option (List Nat × Env) :=
  if n = 0 then some ([], env) else halse_se05x_read_i2c env n

/-- halse_se05x_clear_state. -/
def halse_se05x_clear_state (dev : DevState) : DevState :=
  { dev with n_s := 0, n_r := 0 }

/-- halse_se05x_clear_buf. -/
def halse_se05x_clear_buf (dev : DevState) : DevState :=
  { dev with txbuf := [], txretransmit := false, rxbuf := [] }

/-! ### Sending blocks -/

/-- halse_se05x_crc_and_send: append the CRC (high byte first) to the
prepared prologue-plus-INF bytes, cache the block in txbuf, send it. -/
def halse_se05x_crc_and_send (env : Env) (dev : DevState) (block : List Nat) :
    Int × Env × DevState :=
  let crc := halse_se05x_calculate_crc block
  let full := block ++ [crc / 256, crc % 256]
  let dev' := { dev with txbuf := full }
  let (r, env') := halse_se05x_write_i2c env full
  (r, env', dev')

/-- halse_se05x_resend: a second retransmit in one exchange fails with
-ETIMEDOUT; otherwise set the latch and rewrite the cached block. -/
def halse_se05x_resend (env : Env) (dev : DevState) : Int × Env × DevState :=
  if dev.txretransmit then (-ETIMEDOUT, env, dev)
  else
    let dev' := { dev with txretransmit := true }
    let (r, env') := halse_se05x_write_i2c env dev.txbuf
    (r, env', dev')

/-- halse_se05x_send_s_block. -/
def halse_se05x_send_s_block (env : Env) (dev : DevState) (d t : Nat)
    (inf : List Nat) : Int × Env × DevState :=
  if inf.length > SIZE_INF_MAX then (-1, env, dev)
  else halse_se05x_crc_and_send env dev
    ([SE05X_NAD, S_BLOCK ||| d ||| t, inf.length] ++ inf)

/-- halse_se05x_send_r_block. -/
def halse_se05x_send_r_block (env : Env) (dev : DevState) (n_r ee : Nat) :
    Int × Env × DevState :=
  halse_se05x_crc_and_send env dev [SE05X_NAD, R_BLOCK ||| (n_r <<< 4) ||| ee, 0]

/-! ### Receiving a block -/

/-- Outcome of one pass through the body of halse_se05x_recv_block:
either a result, or the state from which the tail call continues. -/
inductive RecvStep where
  | done (r : Int) (len : Nat) (env : Env) (dev : DevState)
  | again (env : Env) (dev : DevState)
deriving DecidableEq

/-- The PCB dispatch in the second half of halse_se05x_recv_block,
reached once both reads and the CRC check have succeeded: answer a WTX
request and continue waiting, reject other S-block requests, retransmit
on an R-block with error, and deliver everything else. -/
def halse_se05x_recv_dispatch (env2 : Env) (dev2 : DevState) (blk : List Nat)
    (lenb : Nat) : RecvStep :=
  let pcb := blk.getD 1 0
  if is_s_block_request pcb then
    if pcb &&& CMD_TYPE_MASK == CMD_WTX then
      match halse_se05x_send_s_block env2 dev2 CMD_RES CMD_WTX [blk.getD 3 0] with
      | (r, env3, dev3) =>
        if r ≠ 0 then .done (-1) lenb env3 dev3 else .again env3 dev3
    else .done (-1) lenb env2 dev2
  else if is_r_block_with_error pcb then
    match halse_se05x_resend env2 dev2 with
    | (r, env4, dev4) =>
      if r ≠ 0 then .done r lenb env4 dev4 else .again env4 dev4
  else .done 0 lenb env2 dev2

/-- One pass through the body of halse_se05x_recv_block: the two raw
reads, the LEN and CRC checks, then the PCB dispatch.  `.again` marks
the two tail calls of the C code. -/
def halse_se05x_recv_step (env : Env) (dev : DevState) : RecvStep :=
  match halse_se05x_read_i2c env (SIZE_PROLOGUE + SIZE_EPILOGUE) with
  | none => .done (-1) 0 env dev
  | some (hdr, env1) =>
    let dev1 : DevState := { dev with rxbuf := hdr }
    if hdr.getD 2 0 > SIZE_INF_MAX then .done (-1) 0 env1 dev1
    else
      let lenb := hdr.getD 2 0
      match read_inf env1 lenb with
      | none => .done (-1) lenb env1 dev1
      | some (inf, env2) =>
        let blk := hdr ++ inf
        let dev2 : DevState := { dev with rxbuf := blk }
        let exp_crc := halse_se05x_calculate_crc (blk.take (SIZE_PROLOGUE + lenb))
        let act_crc := blk.getD (SIZE_PROLOGUE + lenb) 0 * 256 +
          blk.getD (SIZE_PROLOGUE + lenb + 1) 0
        if exp_crc ≠ act_crc then .done (-1) lenb env2 dev2
        else halse_se05x_recv_dispatch env2 dev2 blk lenb

/-- Fuel-indexed loop for the tail recursion of halse_se05x_recv_block. -/
def halse_se05x_recv_blockF : Nat → Env → DevState → Int × Nat × Env × DevState
  | 0, env, dev => (-1, 0, env, dev)
  | f + 1, env, dev =>
    match halse_se05x_recv_step env dev with
    | .done r len env' dev' => (r, len, env', dev')
    | .again env' dev' => halse_se05x_recv_blockF f env' dev'

/-- halse_se05x_recv_block.  Each iteration consumes at least 5 bytes of
the rx stream, so `env.rx.length` is always enough fuel. -/
def halse_se05x_recv_block (env : Env) (dev : DevState) : Int × Nat × Env × DevState :=
  halse_se05x_recv_blockF env.rx.length env dev

/-! ### Sending an I-block -/

/-- halse_se05x_send_i_block: build the prologue from the old N(S),
toggle N(S), CRC-and-send; on a chained send consume the token-passing
R-block and check it. -/
def halse_se05x_send_i_block (env : Env) (dev : DevState) (buf : List Nat)
    (chain : Bool) : Int × Env × DevState :=
  if buf.length > SIZE_INF_MAX then (-1, env, dev)
  else
    let ns_field := if dev.n_s ≠ 0 then 0x40 else 0
    let chain_field := if chain then 0x20 else 0
    let dev0 : DevState := { dev with n_s := dev.n_s ^^^ 1 }
    match halse_se05x_crc_and_send env dev0
      ([SE05X_NAD, I_BLOCK ||| ns_field ||| chain_field, buf.length] ++ buf) with
    | (r, env1, dev1) =>
      if r ≠ 0 then (-1, env1, dev1)
      else if chain then
        match halse_se05x_recv_block env1 dev1 with
        | (r2, _, env2, dev2) =>
          if r2 ≠ 0 then (r2, env2, dev2)
          else
            let pcb := dev2.rxbuf.getD 1 0
            if is_r_block pcb = false then (-1, env2, dev2)
            else if pcb &&& CMD_ERROR_MASK ≠ 0 then (-1, env2, dev2)
            else if (pcb >>> 4) &&& 1 ≠ dev2.n_s then (-1, env2, dev2)
            else (0, env2, dev2)
      else (0, env1, dev1)

/-! ### The xfer write loop -/

/-- Fuel-indexed write loop of halse_se05x_xfer: chunk the tx data into
I-blocks of at most 254 bytes, chaining while bytes remain. -/
def halse_se05x_xfer_writeF : Nat → Env → DevState → List Nat → Int × Env × DevState
  | 0, env, dev, _ => (-1, env, dev)
  | f + 1, env, dev, remaining =>
    let left := remaining.length
    let len := min SIZE_INF_MAX left
    let chain := decide (0 < left - len)
    match halse_se05x_send_i_block env dev (remaining.take len) chain with
    | (r, env1, dev1) =>
      if r ≠ 0 then (r, env1, dev1)
      else if chain then halse_se05x_xfer_writeF f env1 dev1 (remaining.drop len)
      else (0, env1, dev1)

/-- The xfer write loop.  A continuing iteration removes 254 bytes from
`remaining`, so fuel `remaining.length + 1` never runs out. -/
def halse_se05x_xfer_write (env : Env) (dev : DevState) (tx : List Nat) :
    Int × Env × DevState :=
  halse_se05x_xfer_writeF (tx.length + 1) env dev tx

/-! ### The xfer read loop -/

/-- Outcome of one pass through the body of the xfer read loop.
`completed` records whether control fell out of the loop normally (the
`*rx_len = rx_off` assignment runs) as opposed to jumping to `end`. -/
inductive XferStep where
  | done (r : Int) (completed : Bool) (out : List Nat) (env : Env) (dev : DevState)
  | again (out : List Nat) (env : Env) (dev : DevState)
deriving DecidableEq

/-- One iteration of the xfer read loop: receive a block, require an
I-block (note: on a non-I-block the C code jumps to `end` with `ret`
still 0), truncate to the remaining rx capacity, copy the INF bytes,
and acknowledge a chained block with an R-block. -/
def halse_se05x_xfer_read_step (env : Env) (dev : DevState) (cap : Nat)
    (out : List Nat) : XferStep :=
  match halse_se05x_recv_block env dev with
  | (r, len, env1, dev1) =>
    if r ≠ 0 then .done r false out env1 dev1
    else
      let pcb := dev1.rxbuf.getD 1 0
      if is_i_block pcb = false then .done 0 false out env1 dev1
      else
        let len2 := if out.length + len > cap then cap - out.length else len
        let out1 := out ++ (dev1.rxbuf.drop 3).take len2
        let chain := (pcb >>> 5) &&& 1 == 1
        if chain then
          let n_r := ((pcb >>> 6) &&& 1) ^^^ 1
          match halse_se05x_send_r_block env1 dev1 n_r 0 with
          | (r2, env2, dev2) =>
            if r2 ≠ 0 then .done r2 false out1 env2 dev2
            else .again out1 env2 dev2
        else .done 0 true out1 env1 dev1

/-- Fuel-indexed xfer read loop. -/
def halse_se05x_xfer_readF : Nat → Env → DevState → Nat → List Nat →
    Int × Bool × List Nat × Env × DevState
  | 0, env, dev, _, out => (-1, false, out, env, dev)
  | f + 1, env, dev, cap, out =>
    match halse_se05x_xfer_read_step env dev cap out with
    | .done r c out' env' dev' => (r, c, out', env', dev')
    | .again out' env' dev' => halse_se05x_xfer_readF f env' dev' cap out'

/-- The xfer read loop.  A continuing iteration consumes at least 5
bytes of the rx stream, so fuel `env.rx.length + 1` never runs out. -/
def halse_se05x_xfer_read (env : Env) (dev : DevState) (cap : Nat) :
    Int × Bool × List Nat × Env × DevState :=
  halse_se05x_xfer_readF (env.rx.length + 1) env dev cap []

/-! ### xfer -/

/-- halse_se05x_xfer.  `tx = none` models a NULL tx buffer (otherwise
the list is the tx data, so `tx_len = (tx.getD []).length`); `rx_null`
models a NULL rx buffer pointer; `rx_len = none` models a NULL rx-length
pointer, `some cap` an rx capacity of `cap` bytes.  The result is
(return value, final `*rx_len`, bytes written to the rx buffer, bus,
device state). -/
def halse_se05x_xfer (env : Env) (dev : DevState) (tx : Option (List Nat))
    (rx_null : Bool) (rx_len : Option Nat) :
    Int × Option Nat × List Nat × Env × DevState :=
  if tx = none ∨ (tx.getD []).length = 0 ∨ rx_null = true ∨ rx_len = none then
    (-1, rx_len, [], env, halse_se05x_clear_buf dev)
  else
    match halse_se05x_xfer_write env dev (tx.getD []) with
    | (r, env1, dev1) =>
      if r ≠ 0 then (r, rx_len, [], env1, halse_se05x_clear_buf dev1)
      else
        match halse_se05x_xfer_read env1 dev1 (rx_len.getD 0) with
        | (r2, completed, out, env2, dev2) =>
          let rx_len' := if completed then some out.length else rx_len
          (r2, rx_len', out, env2, halse_se05x_clear_buf dev2)

/-! ### get_atr -/

/-- halse_se05x_get_atr, as a function of the cached real ATR.  Skips
PVER and VID (6 bytes), DLLP_LEN+DLLP, PLID, PLP_LEN+PLP, reads HB_LEN,
fails if HB_LEN > 15, otherwise emits the fixed prologue with the K
nibble fixed up, the historical bytes, and the TCK checksum. -/
def halse_se05x_get_atr (atr : List Nat) : Option (List Nat) :=
  let offset0 := 1 + 5
  let offset1 := offset0 + 1 + atr.getD offset0 0
  let offset2 := offset1 + 1
  let offset3 := offset2 + 1 + atr.getD offset2 0
  let len_hb := atr.getD offset3 0
  let offset_hb := offset3 + 1
  if len_hb > 15 then none
  else
    let body := [0x3B, 0xF0 ||| len_hb, 0x96, 0x00, 0x00, 0x80, 0x11, 0xFE] ++
      (atr.drop offset_hb).take len_hb
    some (body ++ [halse_se05x_calculate_xor (body.drop 1)])

/-! ### Wire-level framing helper -/

/-- A well-formed wire block as halse_se05x_crc_and_send produces it:
prologue, INF, then the CRC of the first 3+LEN bytes, high byte first. -/
def wire (nad pcb : Nat) (inf : List Nat) : List Nat :=
  let pre := [nad, pcb, inf.length] ++ inf
  let crc := halse_se05x_calculate_crc pre
  pre ++ [crc / 256, crc % 256]

/-- The PCB of an I-block from the device with sequence bit ns and
more-data bit more. -/
def i_pcb (ns more : Bool) : Nat :=
  I_BLOCK ||| (if ns then 0x40 else 0) ||| (if more then 0x20 else 0)

/-- The byte stream of a chain of I-blocks sent by the device: every
block except the last has the more-data bit set. -/
def chainBytes : List (Bool × List Nat) → List Nat
  | [] => []
  | (ns, inf) :: rest => wire HOST_NAD (i_pcb ns (!rest.isEmpty)) inf ++ chainBytes rest

/-- The empty transfer state (after halse_se05x_clear_state and
halse_se05x_clear_buf, as at session start). -/
def initDev : DevState :=
  { n_s := 0, n_r := 0, txbuf := [], txretransmit := false, rxbuf := [] }

/-! ### Basic lemmas about the bus primitives -/

theorem crc_and_send_eq (env : Env) (dev : DevState) (block : List Nat) :
    halse_se05x_crc_and_send env dev block =
      (env.wr.headD 0,
       { env with wr := env.wr.tail,
                  sent := env.sent ++ [block ++ [halse_se05x_calculate_crc block / 256,
                                                 halse_se05x_calculate_crc block % 256]] },
       { dev with txbuf := block ++ [halse_se05x_calculate_crc block / 256,
                                     halse_se05x_calculate_crc block % 256] }) := rfl

theorem read_i2c_some {env : Env} {n : Nat} {bs : List Nat} {env' : Env}
    (h : halse_se05x_read_i2c env n = some (bs, env')) :
    bs = env.rx.take n ∧ env' = { env with rx := env.rx.drop n } ∧ n ≤ env.rx.length := by
  unfold halse_se05x_read_i2c at h
  split at h
  · simp only [Option.some.injEq, Prod.mk.injEq] at h
    exact ⟨h.1.symm, h.2.symm, by assumption⟩
  · exact absurd h (by simp)

theorem read_i2c_eq_some {env : Env} {n : Nat} (h : n ≤ env.rx.length) :
    halse_se05x_read_i2c env n = some (env.rx.take n, { env with rx := env.rx.drop n }) := by
  unfold halse_se05x_read_i2c
  simp [h]

theorem read_inf_some {env : Env} {n : Nat} {bs : List Nat} {env' : Env}
    (h : read_inf env n = some (bs, env')) :
    bs = env.rx.take n ∧ env' = { env with rx := env.rx.drop n } ∧ n ≤ env.rx.length := by
  unfold read_inf at h
  split at h
  · simp only [Option.some.injEq, Prod.mk.injEq] at h
    obtain ⟨h1, h2⟩ := h
    subst h1
    subst h2
    simp_all
  · exact read_i2c_some h

theorem read_inf_eq_some {env : Env} {n : Nat} (h : n ≤ env.rx.length) :
    read_inf env n = some (env.rx.take n, { env with rx := env.rx.drop n }) := by
  unfold read_inf
  split
  · subst_vars
    simp
  · exact read_i2c_eq_some h

theorem send_s_block_rx (env : Env) (dev : DevState) (d t : Nat) (inf : List Nat) :
    ((halse_se05x_send_s_block env dev d t inf).2.1).rx = env.rx := by
  unfold halse_se05x_send_s_block
  split <;> rfl

theorem send_s_block_ns (env : Env) (dev : DevState) (d t : Nat) (inf : List Nat) :
    ((halse_se05x_send_s_block env dev d t inf).2.2).n_s = dev.n_s ∧
    ((halse_se05x_send_s_block env dev d t inf).2.2).n_r = dev.n_r := by
  unfold halse_se05x_send_s_block
  split <;> exact ⟨rfl, rfl⟩

theorem resend_rx (env : Env) (dev : DevState) :
    ((halse_se05x_resend env dev).2.1).rx = env.rx := by
  unfold halse_se05x_resend
  split <;> rfl

theorem resend_ns (env : Env) (dev : DevState) :
    ((halse_se05x_resend env dev).2.2).n_s = dev.n_s ∧
    ((halse_se05x_resend env dev).2.2).n_r = dev.n_r := by
  unfold halse_se05x_resend
  split <;> exact ⟨rfl, rfl⟩

theorem send_r_block_rx (env : Env) (dev : DevState) (n_r ee : Nat) :
    ((halse_se05x_send_r_block env dev n_r ee).2.1).rx = env.rx := rfl

/-! ### The wire framing -/

theorem wire_length (nad pcb : Nat) (inf : List Nat) :
    (wire nad pcb inf).length = 5 + inf.length := by
  simp [wire]
  omega

theorem wire_getD_one (nad pcb : Nat) (inf : List Nat) :
    (wire nad pcb inf).getD 1 0 = pcb := rfl

theorem wire_getD_two (nad pcb : Nat) (inf : List Nat) :
    (wire nad pcb inf).getD 2 0 = inf.length := rfl

/-- Receiving a well-formed wire block: both reads succeed, the LEN and
CRC checks pass, and halse_se05x_recv_block proceeds to the PCB
dispatch with the block in the rx buffer.  The NAD is arbitrary: the C
code only logs an unexpected NAD. -/
theorem recv_step_wire {env : Env} (dev : DevState) {nad pcb : Nat} {inf rest : List Nat}
    (hrx : env.rx = wire nad pcb inf ++ rest) (hlen : inf.length ≤ 254) :
    halse_se05x_recv_step env dev =
      halse_se05x_recv_dispatch { env with rx := rest }
        { dev with rxbuf := wire nad pcb inf } (wire nad pcb inf) inf.length := by
  obtain ⟨c, hC⟩ : ∃ c, halse_se05x_calculate_crc ([nad, pcb, inf.length] ++ inf) = c :=
    ⟨_, rfl⟩
  have hwdef : wire nad pcb inf =
      nad :: pcb :: inf.length :: (inf ++ [c / 256, c % 256]) := by
    rw [← hC]
    rfl
  have htail : env.rx =
      nad :: pcb :: inf.length :: ((inf ++ [c / 256, c % 256]) ++ rest) := by
    rw [hrx, hwdef]
    rfl
  have hulen : ((inf ++ [c / 256, c % 256]) ++ rest).length =
      inf.length + 2 + rest.length := by
    simp
    omega
  have h5 : SIZE_PROLOGUE + SIZE_EPILOGUE ≤ env.rx.length := by
    rw [htail]
    simp [SIZE_PROLOGUE, SIZE_EPILOGUE]
    omega
  have hread1 := read_i2c_eq_some h5
  have htake : env.rx.take (SIZE_PROLOGUE + SIZE_EPILOGUE) =
      nad :: pcb :: inf.length :: ((inf ++ [c / 256, c % 256]) ++ rest).take 2 := by
    rw [htail]
    rfl
  have hdrop : env.rx.drop (SIZE_PROLOGUE + SIZE_EPILOGUE) =
      ((inf ++ [c / 256, c % 256]) ++ rest).drop 2 := by
    rw [htail]
    rfl
  have hgd2 : ∀ X : List Nat, (nad :: pcb :: inf.length :: X).getD 2 0 = inf.length :=
    fun X => rfl
  have hL2 : inf.length ≤ (List.drop 2 (inf ++ [c / 256, c % 256] ++ rest)).length := by
    rw [List.length_drop, hulen]
    omega
  have hread2 := @read_inf_eq_some { rx := List.drop 2 (inf ++ [c / 256, c % 256] ++ rest), wr := env.wr, sent := env.sent } inf.length hL2
  have hblk : List.take 2 (inf ++ [c / 256, c % 256] ++ rest) ++
      List.take inf.length (List.drop 2 (inf ++ [c / 256, c % 256] ++ rest)) =
      inf ++ [c / 256, c % 256] := by
    rw [← List.take_add]
    have h2l : (2 : Nat) + inf.length = (inf ++ [c / 256, c % 256]).length := by
      simp
      omega
    rw [h2l, List.take_left]
  have hdrop2 : List.drop inf.length (List.drop 2 (inf ++ [c / 256, c % 256] ++ rest)) = rest := by
    rw [List.drop_drop]
    have h2l : (2 : Nat) + inf.length = (inf ++ [c / 256, c % 256]).length := by
      simp
      omega
    rw [h2l, List.drop_left]
  unfold halse_se05x_recv_step
  rw [hread1]
  simp only [htake, hdrop, hgd2]
  rw [if_neg (by simp [SIZE_INF_MAX] at hlen ⊢; omega)]
  simp only [hread2]
  simp only [List.cons_append, hblk]
  have h3 : SIZE_PROLOGUE + inf.length = inf.length + 3 := by
    simp [SIZE_PROLOGUE]
    omega
  have e1 : List.take (SIZE_PROLOGUE + inf.length)
      (nad :: pcb :: inf.length :: (inf ++ [c / 256, c % 256])) =
      nad :: pcb :: inf.length :: inf := by
    rw [h3]
    show nad :: pcb :: inf.length :: List.take inf.length (inf ++ [c / 256, c % 256]) = _
    rw [List.take_left]
  have e2 : (nad :: pcb :: inf.length :: (inf ++ [c / 256, c % 256])).getD
      (SIZE_PROLOGUE + inf.length) 0 = c / 256 := by
    rw [h3]
    show (inf ++ [c / 256, c % 256]).getD inf.length 0 = c / 256
    rw [List.getD_append_right _ _ _ _ (le_refl _)]
    simp
  have e3 : (nad :: pcb :: inf.length :: (inf ++ [c / 256, c % 256])).getD
      (SIZE_PROLOGUE + inf.length + 1) 0 = c % 256 := by
    have h4 : SIZE_PROLOGUE + inf.length + 1 = inf.length + 4 := by
      simp [SIZE_PROLOGUE]
      omega
    rw [h4]
    show (inf ++ [c / 256, c % 256]).getD (inf.length + 1) 0 = c % 256
    rw [List.getD_append_right _ _ _ _ (by omega)]
    simp
  have e4 : halse_se05x_calculate_crc (nad :: pcb :: inf.length :: inf) = c := hC
  rw [e1, e2, e3, e4, hdrop2, ← hwdef]
  rw [if_neg (by omega)]

/-! ### Dispatch lemmas -/

/-- The device state carried by a RecvStep outcome. -/
def RecvStep.devOf : RecvStep → DevState
  | .done _ _ _ d => d
  | .again _ d => d

/-- The bus state carried by a RecvStep outcome. -/
def RecvStep.envOf : RecvStep → Env
  | .done _ _ e _ => e
  | .again e _ => e

theorem r_block_not_s_request {pcb : Nat} (h : is_r_block pcb = true) :
    is_s_block_request pcb = false := by
  have h' : pcb &&& R_BLOCK_MASK = R_BLOCK := by
    simpa [is_r_block] using h
  simp [is_s_block_request, is_s_block, S_BLOCK_MASK, R_BLOCK_MASK] at h' ⊢
  intro hc
  rw [h'] at hc
  exact absurd hc (by decide)

theorem i_block_not_s_request {pcb : Nat} (h : is_i_block pcb = true) :
    is_s_block_request pcb = false := by
  have h' : pcb &&& I_BLOCK_MASK = I_BLOCK := by
    simpa [is_i_block] using h
  simp [is_i_block, I_BLOCK_MASK, I_BLOCK] at h'
  simp [is_s_block_request, is_s_block, S_BLOCK_MASK, S_BLOCK]
  intro hc
  have hand : (0xC0 : Nat) &&& 0x80 = 0x80 := by decide
  have key : pcb &&& (128 : Nat) = (pcb &&& 192) &&& 128 := by
    rw [Nat.and_assoc, hand]
  rw [hc, h'] at key
  exact absurd key (by decide)

theorem i_block_not_r_error {pcb : Nat} (h : is_i_block pcb = true) :
    is_r_block_with_error pcb = false := by
  have h' : pcb &&& I_BLOCK_MASK = I_BLOCK := by
    simpa [is_i_block] using h
  simp [is_i_block, I_BLOCK_MASK, I_BLOCK] at h'
  simp [is_r_block_with_error, is_r_block, R_BLOCK_MASK, R_BLOCK]
  intro hc
  have hand : (0xC0 : Nat) &&& 0x80 = 0x80 := by decide
  have key : pcb &&& (128 : Nat) = (pcb &&& 192) &&& 128 := by
    rw [Nat.and_assoc, hand]
  rw [hc, h'] at key
  exact absurd key (by decide)

/-- A block whose PCB is neither an S-block request nor an R-block with
error is delivered as-is by the dispatch. -/
theorem recv_dispatch_plain {env2 : Env} {dev2 : DevState} {blk : List Nat}
    {lenb : Nat} (hs : is_s_block_request (blk.getD 1 0) = false)
    (hr : is_r_block_with_error (blk.getD 1 0) = false) :
    halse_se05x_recv_dispatch env2 dev2 blk lenb = .done 0 lenb env2 dev2 := by
  simp only [halse_se05x_recv_dispatch, hs, hr]
  simp


/-! ### Structural facts about one receive step -/

theorem recv_step_of_nil {env : Env} (dev : DevState) (h : env.rx = []) :
    halse_se05x_recv_step env dev = .done (-1) 0 env dev := by
  unfold halse_se05x_recv_step
  have : halse_se05x_read_i2c env (SIZE_PROLOGUE + SIZE_EPILOGUE) = none := by
    unfold halse_se05x_read_i2c
    rw [if_neg]
    rw [h]
    simp [SIZE_PROLOGUE, SIZE_EPILOGUE]
  rw [this]

theorem recv_dispatch_again_rx {env2 : Env} {dev2 : DevState} {blk : List Nat}
    {lenb : Nat} {env' : Env} {dev' : DevState}
    (h : halse_se05x_recv_dispatch env2 dev2 blk lenb = .again env' dev') :
    env'.rx = env2.rx := by
  unfold halse_se05x_recv_dispatch at h
  dsimp only at h
  split at h
  · split at h
    · split at h
      · exact absurd h (by simp)
      · injection h with h1 h2
        rw [← h1]
        exact send_s_block_rx env2 dev2 CMD_RES CMD_WTX [blk.getD 3 0]
    · exact absurd h (by simp)
  · split at h
    · split at h
      · exact absurd h (by simp)
      · injection h with h1 h2
        rw [← h1]
        exact resend_rx env2 dev2
    · exact absurd h (by simp)

theorem recv_step_again_shrink {env : Env} {dev : DevState} {env' : Env}
    {dev' : DevState} (h : halse_se05x_recv_step env dev = .again env' dev') :
    env'.rx.length + 5 ≤ env.rx.length := by
  unfold halse_se05x_recv_step at h
  split at h
  · exact absurd h (by simp)
  next hdr env1 heq1 =>
    obtain ⟨hhdr, henv1, hle1⟩ := read_i2c_some heq1
    have h55 : (SIZE_PROLOGUE + SIZE_EPILOGUE : Nat) = 5 := rfl
    split at h
    · exact absurd h (by simp)
    · dsimp only at h
      split at h
      · exact absurd h (by simp)
      next inf2 env2 heq2 =>
        obtain ⟨hinf2, henv2, hle2⟩ := read_inf_some heq2
        split at h
        · exact absurd h (by simp)
        · have hrx := recv_dispatch_again_rx h
          rw [hrx, henv2, henv1]
          simp only [List.length_drop]
          rw [h55] at hle1
          omega

theorem recv_dispatch_ns (env2 : Env) (dev2 : DevState) (blk : List Nat) (lenb : Nat) :
    ((halse_se05x_recv_dispatch env2 dev2 blk lenb).devOf).n_s = dev2.n_s ∧
    ((halse_se05x_recv_dispatch env2 dev2 blk lenb).devOf).n_r = dev2.n_r := by
  constructor <;>
  · unfold halse_se05x_recv_dispatch
    dsimp only
    split
    · split
      · rcases h : halse_se05x_send_s_block env2 dev2 CMD_RES CMD_WTX [blk.getD 3 0]
          with ⟨r, env3, dev3⟩
        have hsend := send_s_block_ns env2 dev2 CMD_RES CMD_WTX [blk.getD 3 0]
        rw [h] at hsend
        split <;> first | exact hsend.1 | exact hsend.2
      · rfl
    · split
      · rcases h : halse_se05x_resend env2 dev2 with ⟨r, env4, dev4⟩
        have hres := resend_ns env2 dev2
        rw [h] at hres
        split <;> first | exact hres.1 | exact hres.2
      · rfl

/-- The device-state component of one receive step never touches the
sequence numbers. -/
theorem recv_step_ns (env : Env) (dev : DevState) :
    ((halse_se05x_recv_step env dev).devOf).n_s = dev.n_s ∧
    ((halse_se05x_recv_step env dev).devOf).n_r = dev.n_r := by
  unfold halse_se05x_recv_step
  split
  · exact ⟨rfl, rfl⟩
  next hdr env1 heq1 =>
    split
    · exact ⟨rfl, rfl⟩
    · dsimp only
      split
      · exact ⟨rfl, rfl⟩
      next inf2 env2 heq2 =>
        split
        · exact ⟨rfl, rfl⟩
        · exact recv_dispatch_ns env2 _ (hdr ++ inf2) (hdr.getD 2 0)

/-! ### Unfolding halse_se05x_recv_block -/

theorem recv_block_eq_step_done {env : Env} {dev : DevState} {r : Int}
    {len : Nat} {e : Env} {d : DevState}
    (h : halse_se05x_recv_step env dev = .done r len e d) :
    halse_se05x_recv_block env dev = (r, len, e, d) := by
  unfold halse_se05x_recv_block
  cases hm : env.rx.length with
  | zero =>
    have hnil : env.rx = [] := List.length_eq_zero.mp hm
    rw [recv_step_of_nil dev hnil] at h
    injection h with h1 h2 h3 h4
    subst h1
    subst h2
    subst h3
    subst h4
    rfl
  | succ m =>
    unfold halse_se05x_recv_blockF
    rw [h]

/-- Fuel above `env.rx.length` is irrelevant. -/
theorem recv_blockF_stable : ∀ f : Nat, ∀ env : Env, ∀ dev : DevState,
    env.rx.length ≤ f →
    halse_se05x_recv_blockF f env dev = halse_se05x_recv_block env dev := by
  intro f
  induction f using Nat.strong_induction_on with
  | _ f ih =>
    intro env dev hle
    match f with
    | 0 =>
      have h0 : env.rx.length = 0 := Nat.le_zero.mp hle
      unfold halse_se05x_recv_block
      rw [h0]
    | f + 1 =>
      cases hstep : halse_se05x_recv_step env dev with
      | done r len e d =>
        rw [show halse_se05x_recv_blockF (f + 1) env dev = (r, len, e, d) by
              unfold halse_se05x_recv_blockF
              rw [hstep]]
        rw [recv_block_eq_step_done hstep]
      | again e d =>
        have hsh := recv_step_again_shrink hstep
        have h1 : halse_se05x_recv_blockF (f + 1) env dev =
            halse_se05x_recv_blockF f e d := by
          conv_lhs => rw [halse_se05x_recv_blockF]
          rw [hstep]
        obtain ⟨m, hm⟩ : ∃ m, env.rx.length = m + 1 := ⟨env.rx.length - 1, by omega⟩
        have h2 : halse_se05x_recv_block env dev = halse_se05x_recv_blockF m e d := by
          unfold halse_se05x_recv_block
          rw [hm]
          conv_lhs => rw [halse_se05x_recv_blockF]
          rw [hstep]
        rw [h1, h2, ih f (Nat.lt_succ_self f) e d (by omega),
          ih m (by omega) e d (by omega)]

theorem recv_block_eq_step_again {env : Env} {dev : DevState} {e : Env}
    {d : DevState} (h : halse_se05x_recv_step env dev = .again e d) :
    halse_se05x_recv_block env dev = halse_se05x_recv_block e d := by
  have hsh := recv_step_again_shrink h
  obtain ⟨m, hm⟩ : ∃ m, env.rx.length = m + 1 := ⟨env.rx.length - 1, by omega⟩
  have lhs : halse_se05x_recv_block env dev = halse_se05x_recv_blockF m e d := by
    unfold halse_se05x_recv_block
    rw [hm]
    conv_lhs => rw [halse_se05x_recv_blockF]
    rw [h]
  rw [lhs, recv_blockF_stable m e d (by omega)]

/-- halse_se05x_recv_block never touches the sequence numbers. -/
theorem recv_block_ns (env : Env) (dev : DevState) :
    ((halse_se05x_recv_block env dev).2.2.2).n_s = dev.n_s ∧
    ((halse_se05x_recv_block env dev).2.2.2).n_r = dev.n_r := by
  suffices h : ∀ f : Nat, ∀ env : Env, ∀ dev : DevState,
      ((halse_se05x_recv_blockF f env dev).2.2.2).n_s = dev.n_s ∧
      ((halse_se05x_recv_blockF f env dev).2.2.2).n_r = dev.n_r by
    exact h env.rx.length env dev
  intro f
  induction f with
  | zero => exact fun env dev => ⟨rfl, rfl⟩
  | succ f ih =>
    intro env dev
    unfold halse_se05x_recv_blockF
    cases hstep : halse_se05x_recv_step env dev with
    | done r len e d =>
      have := recv_step_ns env dev
      rw [hstep] at this
      exact this
    | again e d =>
      have hd := recv_step_ns env dev
      rw [hstep] at hd
      have := ih e d
      exact ⟨by rw [this.1]; exact hd.1, by rw [this.2]; exact hd.2⟩

/-! ### Receiving specific wire blocks -/

theorem recv_block_wire_plain {env : Env} (dev : DevState) {nad pcb : Nat}
    {inf rest : List Nat} (hrx : env.rx = wire nad pcb inf ++ rest)
    (hlen : inf.length ≤ 254) (hs : is_s_block_request pcb = false)
    (hr : is_r_block_with_error pcb = false) :
    halse_se05x_recv_block env dev =
      (0, inf.length, { env with rx := rest },
       { dev with rxbuf := wire nad pcb inf }) := by
  have hstep := recv_step_wire dev hrx hlen
  rw [recv_dispatch_plain (by rw [wire_getD_one]; exact hs)
    (by rw [wire_getD_one]; exact hr)] at hstep
  exact recv_block_eq_step_done hstep

theorem r_error_is_r {pcb : Nat} (h : is_r_block_with_error pcb = true) :
    is_r_block pcb = true := by
  simp [is_r_block_with_error] at h
  exact h.1

theorem recv_dispatch_wtx {env2 : Env} {dev2 : DevState} {nad a lenb : Nat}
    (hwr : env2.wr.headD 0 = 0) :
    halse_se05x_recv_dispatch env2 dev2 (wire nad 0xC3 [a]) lenb =
      .again { env2 with wr := env2.wr.tail,
                         sent := env2.sent ++ [wire SE05X_NAD 0xE3 [a]] }
        { dev2 with txbuf := wire SE05X_NAD 0xE3 [a] } := by
  have hsend : halse_se05x_send_s_block env2 dev2 CMD_RES CMD_WTX [(wire nad 0xC3 [a]).getD 3 0] =
      (env2.wr.headD 0,
       { env2 with wr := env2.wr.tail, sent := env2.sent ++ [wire SE05X_NAD 0xE3 [a]] },
       { dev2 with txbuf := wire SE05X_NAD 0xE3 [a] }) := by
    have hinf : (wire nad 0xC3 [a]).getD 3 0 = a := rfl
    rw [hinf]
    unfold halse_se05x_send_s_block
    rw [if_neg (by simp [SIZE_INF_MAX])]
    rw [crc_and_send_eq]
    rfl
  unfold halse_se05x_recv_dispatch
  dsimp only
  rw [wire_getD_one]
  rw [if_pos (by decide : is_s_block_request 0xC3 = true)]
  rw [if_pos (by decide : ((0xC3 : Nat) &&& CMD_TYPE_MASK == CMD_WTX) = true)]
  rw [hsend]
  dsimp only
  rw [hwr]
  simp

theorem recv_block_wire_wtx {env : Env} (dev : DevState) {nad a : Nat}
    {rest : List Nat} (hrx : env.rx = wire nad 0xC3 [a] ++ rest)
    (hwr : env.wr.headD 0 = 0) :
    halse_se05x_recv_block env dev =
      halse_se05x_recv_block
        { rx := rest, wr := env.wr.tail,
          sent := env.sent ++ [wire SE05X_NAD 0xE3 [a]] }
        { dev with rxbuf := wire nad 0xC3 [a],
                   txbuf := wire SE05X_NAD 0xE3 [a] } := by
  have hstep := recv_step_wire dev hrx (by simp)
  rw [@recv_dispatch_wtx { env with rx := rest } { dev with rxbuf := wire nad 0xC3 [a] } nad a ([a].length) hwr] at hstep
  exact recv_block_eq_step_again hstep

theorem recv_dispatch_rerr_latched {env2 : Env} {dev2 : DevState}
    {nad pcb lenb : Nat} {inf : List Nat}
    (hr : is_r_block_with_error pcb = true) (hl : dev2.txretransmit = true) :
    halse_se05x_recv_dispatch env2 dev2 (wire nad pcb inf) lenb =
      .done (-ETIMEDOUT) lenb env2 dev2 := by
  unfold halse_se05x_recv_dispatch
  dsimp only
  rw [wire_getD_one]
  rw [if_neg (by rw [r_block_not_s_request (r_error_is_r hr)]; simp)]
  rw [if_pos hr]
  have hres : halse_se05x_resend env2 dev2 = (-ETIMEDOUT, env2, dev2) := by
    unfold halse_se05x_resend
    rw [if_pos hl]
  rw [hres]
  dsimp only
  rw [if_pos (by simp [ETIMEDOUT])]

theorem recv_dispatch_rerr_resend {env2 : Env} {dev2 : DevState}
    {nad pcb lenb : Nat} {inf : List Nat}
    (hr : is_r_block_with_error pcb = true) (hl : dev2.txretransmit = false)
    (hwr : env2.wr.headD 0 = 0) :
    halse_se05x_recv_dispatch env2 dev2 (wire nad pcb inf) lenb =
      .again { env2 with wr := env2.wr.tail, sent := env2.sent ++ [dev2.txbuf] }
        { dev2 with txretransmit := true } := by
  unfold halse_se05x_recv_dispatch
  dsimp only
  rw [wire_getD_one]
  rw [if_neg (by rw [r_block_not_s_request (r_error_is_r hr)]; simp)]
  rw [if_pos hr]
  have hres : halse_se05x_resend env2 dev2 =
      (env2.wr.headD 0,
       { env2 with wr := env2.wr.tail, sent := env2.sent ++ [dev2.txbuf] },
       { dev2 with txretransmit := true }) := by
    unfold halse_se05x_resend
    rw [if_neg (by rw [hl]; simp)]
    rfl
  rw [hres]
  dsimp only
  rw [hwr]
  simp

theorem recv_block_wire_rerr_latched {env : Env} (dev : DevState)
    {nad pcb : Nat} {rest : List Nat}
    (hrx : env.rx = wire nad pcb [] ++ rest)
    (hr : is_r_block_with_error pcb = true) (hl : dev.txretransmit = true) :
    halse_se05x_recv_block env dev =
      (-ETIMEDOUT, 0, { env with rx := rest },
       { dev with rxbuf := wire nad pcb [] }) := by
  have hstep := recv_step_wire dev hrx (by simp)
  rw [recv_dispatch_rerr_latched hr (by exact hl)] at hstep
  exact recv_block_eq_step_done hstep

theorem recv_block_wire_rerr_resend {env : Env} (dev : DevState)
    {nad pcb : Nat} {rest : List Nat}
    (hrx : env.rx = wire nad pcb [] ++ rest)
    (hr : is_r_block_with_error pcb = true) (hl : dev.txretransmit = false)
    (hwr : env.wr.headD 0 = 0) :
    halse_se05x_recv_block env dev =
      halse_se05x_recv_block
        { rx := rest, wr := env.wr.tail, sent := env.sent ++ [dev.txbuf] }
        { dev with rxbuf := wire nad pcb [], txretransmit := true } := by
  have hstep := recv_step_wire dev hrx (by simp)
  rw [recv_dispatch_rerr_resend hr (by exact hl) (by exact hwr)] at hstep
  exact recv_block_eq_step_again hstep

/-! ### Claim C2: the retransmit latch -/

/-- C2: within one exchange at most one retransmission happens.  The
first R-block with non-zero EE makes halse_se05x_recv_block resend the
cached txbuf unchanged (it is appended to the write trace) and set the
latch; with the latch already set, a further R-block with non-zero EE
makes the exchange fail with -ETIMEDOUT. -/
theorem C2_retransmit_latch (env : Env) (dev : DevState) (pcb : Nat)
    (rest : List Nat) (hrx : env.rx = wire HOST_NAD pcb [] ++ rest)
    (hr : is_r_block_with_error pcb = true) :
    (dev.txretransmit = false → env.wr.headD 0 = 0 →
      halse_se05x_recv_block env dev =
        halse_se05x_recv_block
          { rx := rest, wr := env.wr.tail, sent := env.sent ++ [dev.txbuf] }
          { dev with rxbuf := wire HOST_NAD pcb [], txretransmit := true }) ∧
    (dev.txretransmit = true →
      halse_se05x_recv_block env dev =
        (-ETIMEDOUT, 0, { env with rx := rest },
         { dev with rxbuf := wire HOST_NAD pcb [] })) :=
  ⟨fun hl hwr => recv_block_wire_rerr_resend dev hrx hr hl hwr,
   fun hl => recv_block_wire_rerr_latched dev hrx hr hl⟩

/-- Witness for C2 at the R-block `A5 81 00 <crc>` (EE = 1). -/
theorem C2_retransmit_latch_witness :
    (halse_se05x_recv_block
        { rx := wire HOST_NAD 0x81 [] ++ [], wr := [], sent := [] }
        { n_s := 0, n_r := 0, txbuf := wire SE05X_NAD 0x00 [0x42],
          txretransmit := false, rxbuf := [] } =
      halse_se05x_recv_block
        { rx := [], wr := [], sent := [] ++ [wire SE05X_NAD 0x00 [0x42]] }
        { n_s := 0, n_r := 0, txbuf := wire SE05X_NAD 0x00 [0x42],
          txretransmit := true, rxbuf := wire HOST_NAD 0x81 [] }) ∧
    (halse_se05x_recv_block
        { rx := wire HOST_NAD 0x81 [] ++ [], wr := [], sent := [] }
        { n_s := 0, n_r := 0, txbuf := wire SE05X_NAD 0x00 [0x42],
          txretransmit := true, rxbuf := [] } =
      (-ETIMEDOUT, 0, { rx := [], wr := [], sent := [] },
       { n_s := 0, n_r := 0, txbuf := wire SE05X_NAD 0x00 [0x42],
         txretransmit := true, rxbuf := wire HOST_NAD 0x81 [] })) := by
  constructor
  · exact (C2_retransmit_latch _ _ 0x81 [] rfl (by decide)).1 rfl rfl
  · exact (C2_retransmit_latch _ _ 0x81 [] rfl (by decide)).2 rfl

/-! ### Claim C5: the WTX echo -/

/-- C5: a valid WTX S-block request with a one-byte INF is answered
with the S-block response `5A E3 01 <INF[0]> <crc>` (NAD 0x5A, PCB
0xE3, LEN 1, INF echoed), and halse_se05x_recv_block keeps waiting for
the real block. -/
theorem C5_wtx_echo (env : Env) (dev : DevState) (a : Nat) (rest : List Nat)
    (hrx : env.rx = wire HOST_NAD 0xC3 [a] ++ rest)
    (hwr : env.wr.headD 0 = 0) :
    halse_se05x_recv_block env dev =
      halse_se05x_recv_block
        { rx := rest, wr := env.wr.tail,
          sent := env.sent ++ [wire SE05X_NAD 0xE3 [a]] }
        { dev with rxbuf := wire HOST_NAD 0xC3 [a],
                   txbuf := wire SE05X_NAD 0xE3 [a] } ∧
    (wire SE05X_NAD 0xE3 [a]).getD 0 0 = 0x5A ∧
    (wire SE05X_NAD 0xE3 [a]).getD 1 0 = 0xE3 ∧
    (wire SE05X_NAD 0xE3 [a]).getD 2 0 = 1 ∧
    (wire SE05X_NAD 0xE3 [a]).getD 3 0 = a :=
  ⟨recv_block_wire_wtx dev hrx hwr, rfl, rfl, rfl, rfl⟩

/-- Witness for C5 at the request `A5 C3 01 AA <crc>` followed by a
plain I-block. -/
theorem C5_wtx_echo_witness :
    (halse_se05x_recv_block
        { rx := wire HOST_NAD 0xC3 [0xAA] ++ wire HOST_NAD 0x00 [],
          wr := [], sent := [] } initDev =
      halse_se05x_recv_block
        { rx := wire HOST_NAD 0x00 [], wr := [],
          sent := [] ++ [wire SE05X_NAD 0xE3 [0xAA]] }
        { initDev with rxbuf := wire HOST_NAD 0xC3 [0xAA],
                       txbuf := wire SE05X_NAD 0xE3 [0xAA] } ∧
      (wire SE05X_NAD 0xE3 [0xAA]).getD 0 0 = 0x5A ∧
      (wire SE05X_NAD 0xE3 [0xAA]).getD 1 0 = 0xE3 ∧
      (wire SE05X_NAD 0xE3 [0xAA]).getD 2 0 = 1 ∧
      (wire SE05X_NAD 0xE3 [0xAA]).getD 3 0 = 0xAA) :=
  C5_wtx_echo _ initDev 0xAA (wire HOST_NAD 0x00 []) rfl rfl

/-! ### Claim C6: WTX and the session state -/

set_option maxRecDepth 8192 in
/-- C6 counterexample: handling a single WTX request overwrites the
cached transmit block (txbuf) with the WTX response, because
halse_se05x_send_s_block writes through the shared tx buffer.  The
exchange still succeeds, but the buffer state claimed untouched by the
spec has changed. -/
theorem C6_wtx_clobbers_txbuf :
    (halse_se05x_recv_block
        { rx := wire HOST_NAD 0xC3 [0xAA] ++ wire HOST_NAD 0x00 [],
          wr := [], sent := [] }
        { n_s := 0, n_r := 0, txbuf := wire SE05X_NAD 0x00 [0x42],
          txretransmit := false, rxbuf := [] }).1 = 0 ∧
    ((halse_se05x_recv_block
        { rx := wire HOST_NAD 0xC3 [0xAA] ++ wire HOST_NAD 0x00 [],
          wr := [], sent := [] }
        { n_s := 0, n_r := 0, txbuf := wire SE05X_NAD 0x00 [0x42],
          txretransmit := false, rxbuf := [] }).2.2.2).txbuf ≠
      wire SE05X_NAD 0x00 [0x42] := by
  decide

/-- C6 amended: any number of WTX requests injected before the real
block are each answered, the receive continues at the real block, and
N(S), N(R) and the retransmit latch are untouched; the cached
txbuf, however, ends up holding the last WTX response. -/
theorem C6_wtx_transparent : ∀ (as : List Nat) (env : Env) (dev : DevState)
    (rest : List Nat),
    env.rx = (as.map (fun a => wire HOST_NAD 0xC3 [a])).flatten ++ rest →
    env.wr = [] →
    halse_se05x_recv_block env dev =
      halse_se05x_recv_block
        { rx := rest, wr := [],
          sent := env.sent ++ as.map (fun a => wire SE05X_NAD 0xE3 [a]) }
        { dev with
          rxbuf := as.foldl (fun _ a => wire HOST_NAD 0xC3 [a]) dev.rxbuf,
          txbuf := as.foldl (fun _ a => wire SE05X_NAD 0xE3 [a]) dev.txbuf } := by
  intro as
  induction as with
  | nil =>
    intro env dev rest hrx hwr
    simp only [List.map_nil, List.flatten_nil, List.nil_append] at hrx
    simp only [List.foldl_nil, List.map_nil, List.append_nil]
    have henv : env = { rx := rest, wr := [], sent := env.sent } := by
      cases env
      simp_all
    rw [← henv]
  | cons a as ih =>
    intro env dev rest hrx hwr
    have hrx' : env.rx = wire HOST_NAD 0xC3 [a] ++
        ((as.map (fun a => wire HOST_NAD 0xC3 [a])).flatten ++ rest) := by
      rw [hrx]
      simp [List.append_assoc]
    rw [recv_block_wire_wtx dev hrx' (by rw [hwr]; rfl)]
    rw [ih _ _ rest rfl (by simp [hwr])]
    simp [List.append_assoc]

/-- Witness for the amended C6: two WTX requests before a plain block. -/
theorem C6_wtx_transparent_witness :
    halse_se05x_recv_block
      { rx := (([0xAA, 0xBB] : List Nat).map
          (fun a => wire HOST_NAD 0xC3 [a])).flatten ++ wire HOST_NAD 0x00 [],
        wr := [], sent := [] } initDev =
      halse_se05x_recv_block
        { rx := wire HOST_NAD 0x00 [], wr := [],
          sent := [] ++ ([0xAA, 0xBB] : List Nat).map
            (fun a => wire SE05X_NAD 0xE3 [a]) }
        { initDev with
          rxbuf := ([0xAA, 0xBB] : List Nat).foldl
            (fun _ a => wire HOST_NAD 0xC3 [a]) initDev.rxbuf,
          txbuf := ([0xAA, 0xBB] : List Nat).foldl
            (fun _ a => wire SE05X_NAD 0xE3 [a]) initDev.txbuf } :=
  C6_wtx_transparent [0xAA, 0xBB] _ initDev _ rfl rfl

/-! ### Sending I-blocks: sequence-number discipline -/

/-- halse_se05x_send_i_block toggles N(S) before the write, with no
rollback on any failure path. -/
theorem send_i_block_ns (env : Env) (dev : DevState) (buf : List Nat)
    (chain : Bool) (hlen : buf.length ≤ SIZE_INF_MAX) :
    ((halse_se05x_send_i_block env dev buf chain).2.2).n_s = dev.n_s ^^^ 1 := by
  unfold halse_se05x_send_i_block
  rw [if_neg (by omega)]
  dsimp only
  rw [crc_and_send_eq]
  dsimp only
  repeat' split
  all_goals first | rfl | exact (recv_block_ns _ _).1

/-- A successful halse_se05x_send_i_block call toggles N(S). -/
theorem send_i_block_succ_ns {env : Env} {dev : DevState} {buf : List Nat}
    {chain : Bool} (h : (halse_se05x_send_i_block env dev buf chain).1 = 0) :
    ((halse_se05x_send_i_block env dev buf chain).2.2).n_s = dev.n_s ^^^ 1 := by
  by_cases hlen : buf.length ≤ SIZE_INF_MAX
  · exact send_i_block_ns env dev buf chain hlen
  · exfalso
    have hfail : halse_se05x_send_i_block env dev buf chain = (-1, env, dev) := by
      unfold halse_se05x_send_i_block
      rw [if_pos (by omega)]
    rw [hfail] at h
    exact absurd h (by simp)

/-- A sequence of halse_se05x_send_i_block calls, stopping at the first
failure.  The Bool records whether all calls succeeded. -/
def halse_se05x_send_seq : Env → DevState → List (List Nat × Bool) →
    Bool × Env × DevState
  | env, dev, [] => (true, env, dev)
  | env, dev, (buf, chain) :: rest =>
    match halse_se05x_send_i_block env dev buf chain with
    | (r, env1, dev1) =>
      if r = 0 then halse_se05x_send_seq env1 dev1 rest else (false, env1, dev1)

theorem send_seq_ns : ∀ (reqs : List (List Nat × Bool)) (env : Env)
    (dev : DevState), (halse_se05x_send_seq env dev reqs).1 = true →
    ((halse_se05x_send_seq env dev reqs).2.2).n_s =
      dev.n_s ^^^ (reqs.length % 2) := by
  intro reqs
  induction reqs with
  | nil =>
    intro env dev _
    simp [halse_se05x_send_seq]
  | cons p rest ih =>
    intro env dev hok
    obtain ⟨buf, chain⟩ := p
    unfold halse_se05x_send_seq at hok ⊢
    rcases hsend : halse_se05x_send_i_block env dev buf chain with ⟨r, env1, dev1⟩
    rw [hsend] at hok
    dsimp only at hok ⊢
    by_cases hr : r = 0
    · rw [if_pos hr] at hok ⊢
      have h1 : dev1.n_s = dev.n_s ^^^ 1 := by
        have h2 := @send_i_block_succ_ns env dev buf chain (by rw [hsend]; exact hr)
        rw [hsend] at h2
        exact h2
      rw [ih env1 dev1 hok, h1]
      rcases Nat.mod_two_eq_zero_or_one rest.length with h | h <;>
      · rw [Nat.xor_assoc, List.length_cons]
        rw [h]
        have : (rest.length + 1) % 2 = 1 - rest.length % 2 := by omega
        rw [this, h]
        congr 1
    · rw [if_neg hr] at hok
      exact absurd hok (by simp)

/-- A successful chained halse_se05x_send_i_block implies that the
token block left in the rx buffer passed all three checks: it is an
R-block, its EE bits are 0 and its N(R) bit equals the new N(S). -/
theorem send_i_block_chain_token {env : Env} {dev : DevState} {buf : List Nat}
    {r : Int} {env' : Env} {dev' : DevState}
    (h : halse_se05x_send_i_block env dev buf true = (r, env', dev'))
    (hr : r = 0) :
    is_r_block (dev'.rxbuf.getD 1 0) = true ∧
    dev'.rxbuf.getD 1 0 &&& CMD_ERROR_MASK = 0 ∧
    (dev'.rxbuf.getD 1 0 >>> 4) &&& 1 = dev'.n_s := by
  subst hr
  unfold halse_se05x_send_i_block at h
  split at h
  · simp at h
  · dsimp only at h
    rw [crc_and_send_eq] at h
    dsimp only at h
    split at h
    · simp at h
    · split at h
      · split at h <;>
        · split at h
          · rename_i hne
            injection h with h1 h23
            exact absurd h1 hne
          · split at h
            · simp at h
            · split at h
              · simp at h
              · split at h
                · simp at h
                · rename_i hcr hee hnr
                  injection h with h1 h23
                  injection h23 with h2 h3
                  subst h3
                  exact ⟨by simpa using hcr, by omega, by omega⟩
      · rename_i hfalse
        exact absurd rfl hfalse

/-! ### Claim C3: sequence-number discipline -/

/-- C3: starting from cleared state, after N successful
halse_se05x_send_i_block calls N(S) equals N mod 2; and a chained send
succeeds only if the token block received afterwards is an R-block with
EE = 0 whose N(R) bit (bit 4 of the PCB) equals the new, just-toggled
N(S). -/
theorem C3_sequence_discipline :
    (∀ (env : Env) (dev : DevState) (reqs : List (List Nat × Bool)),
      dev.n_s = 0 → (halse_se05x_send_seq env dev reqs).1 = true →
      ((halse_se05x_send_seq env dev reqs).2.2).n_s = reqs.length % 2) ∧
    (∀ (env : Env) (dev : DevState) (buf : List Nat) (r : Int) (env' : Env)
      (dev' : DevState),
      halse_se05x_send_i_block env dev buf true = (r, env', dev') → r = 0 →
      is_r_block (dev'.rxbuf.getD 1 0) = true ∧
      dev'.rxbuf.getD 1 0 &&& CMD_ERROR_MASK = 0 ∧
      (dev'.rxbuf.getD 1 0 >>> 4) &&& 1 = dev'.n_s) := by
  constructor
  · intro env dev reqs h0 hok
    have hseq := send_seq_ns reqs env dev hok
    rw [hseq, h0]
    exact Nat.zero_xor _
  · intro env dev buf r env' dev' h hr
    exact send_i_block_chain_token h hr

set_option maxRecDepth 8192 in
/-- Witness for C3: two successful unchained sends end with N(S) = 0,
and a chained send against the token R-block `A5 90 00 <crc>`
(N(R) = 1, EE = 0) succeeds with the checks holding. -/
theorem C3_sequence_discipline_witness :
    (((halse_se05x_send_seq { rx := [], wr := [], sent := [] } initDev
        [([0x01], false), ([0x02], false)]).2.2).n_s =
      ([([0x01], false), ([0x02], false)] : List (List Nat × Bool)).length % 2) ∧
    (is_r_block (((halse_se05x_send_i_block
        { rx := wire HOST_NAD 0x90 [], wr := [], sent := [] } initDev
        [0x01] true).2.2).rxbuf.getD 1 0) = true ∧
      ((halse_se05x_send_i_block
        { rx := wire HOST_NAD 0x90 [], wr := [], sent := [] } initDev
        [0x01] true).2.2).rxbuf.getD 1 0 &&& CMD_ERROR_MASK = 0 ∧
      (((halse_se05x_send_i_block
        { rx := wire HOST_NAD 0x90 [], wr := [], sent := [] } initDev
        [0x01] true).2.2).rxbuf.getD 1 0 >>> 4) &&& 1 =
        ((halse_se05x_send_i_block
          { rx := wire HOST_NAD 0x90 [], wr := [], sent := [] } initDev
          [0x01] true).2.2).n_s) :=
  ⟨C3_sequence_discipline.1 { rx := [], wr := [], sent := [] } initDev
      [([0x01], false), ([0x02], false)] rfl (by decide),
   C3_sequence_discipline.2 { rx := wire HOST_NAD 0x90 [], wr := [], sent := [] }
      initDev [0x01] _ _ _ rfl (by decide)⟩

/-! ### Claim C10: N(S) advances even on a failed send -/

/-- C10: for every call with len ≤ 254, halse_se05x_send_i_block leaves
N(S) equal to its old value XOR 1 whether or not the call succeeds: the
toggle happens before the I2C write and is never rolled back. -/
theorem C10_ns_advances_even_on_failure (env : Env) (dev : DevState)
    (buf : List Nat) (chain : Bool) (hlen : buf.length ≤ 254) :
    ((halse_se05x_send_i_block env dev buf chain).2.2).n_s = dev.n_s ^^^ 1 :=
  send_i_block_ns env dev buf chain hlen

set_option maxRecDepth 8192 in
/-- Witness for C10: a chained send whose token read fails (empty rx
stream) returns an error yet still toggles N(S). -/
theorem C10_ns_advances_even_on_failure_witness :
    ((halse_se05x_send_i_block { rx := [], wr := [], sent := [] } initDev
        [0x01] true).1 ≠ 0) ∧
    ((halse_se05x_send_i_block { rx := [], wr := [], sent := [] } initDev
        [0x01] true).2.2).n_s = initDev.n_s ^^^ 1 :=
  ⟨by decide,
   C10_ns_advances_even_on_failure { rx := [], wr := [], sent := [] } initDev
     [0x01] true (by decide)⟩

/-! ### Claim C4: CRC round trip -/

/-- C4: a block framed by the sender (prologue NAD PCB LEN, then INF,
then the CRC of the first 3+LEN bytes appended high byte first) passes
the receiver's checks — the CRC recomputed over the first 3+LEN bytes
equals the big-endian value of the two epilogue bytes, exactly as
halse_se05x_recv_block computes it, and LEN is within bounds — and the
receiver recovers the same PCB, LEN and INF at their offsets. -/
theorem C4_crc_round_trip (env : Env) (dev : DevState) (pcb : Nat)
    (inf : List Nat) (hlen : inf.length ≤ 254) :
    ((halse_se05x_crc_and_send env dev
        ([SE05X_NAD, pcb, inf.length] ++ inf)).2.2).txbuf =
      wire SE05X_NAD pcb inf ∧
    halse_se05x_calculate_crc
        ((wire SE05X_NAD pcb inf).take (SIZE_PROLOGUE + inf.length)) =
      (wire SE05X_NAD pcb inf).getD (SIZE_PROLOGUE + inf.length) 0 * 256 +
        (wire SE05X_NAD pcb inf).getD (SIZE_PROLOGUE + inf.length + 1) 0 ∧
    (wire SE05X_NAD pcb inf).getD 2 0 ≤ SIZE_INF_MAX ∧
    (wire SE05X_NAD pcb inf).getD 1 0 = pcb ∧
    (wire SE05X_NAD pcb inf).getD 2 0 = inf.length ∧
    ((wire SE05X_NAD pcb inf).drop 3).take inf.length = inf := by
  obtain ⟨c, hC⟩ : ∃ c, halse_se05x_calculate_crc
      ([SE05X_NAD, pcb, inf.length] ++ inf) = c := ⟨_, rfl⟩
  have hwdef : wire SE05X_NAD pcb inf =
      SE05X_NAD :: pcb :: inf.length :: (inf ++ [c / 256, c % 256]) := by
    rw [← hC]
    rfl
  have hcle : c % 65536 = c := by
    have : c < 65536 := by
      rw [← hC]
      unfold halse_se05x_calculate_crc swap_uint16
      exact Nat.mod_lt _ (by omega)
    omega
  have h3 : SIZE_PROLOGUE + inf.length = inf.length + 3 := by
    simp [SIZE_PROLOGUE]
    omega
  have e1 : (wire SE05X_NAD pcb inf).take (SIZE_PROLOGUE + inf.length) =
      SE05X_NAD :: pcb :: inf.length :: inf := by
    rw [hwdef, h3]
    show SE05X_NAD :: pcb :: inf.length :: List.take inf.length (inf ++ [c / 256, c % 256]) = _
    rw [List.take_left]
  have e2 : (wire SE05X_NAD pcb inf).getD (SIZE_PROLOGUE + inf.length) 0 = c / 256 := by
    rw [hwdef, h3]
    show (inf ++ [c / 256, c % 256]).getD inf.length 0 = c / 256
    rw [List.getD_append_right _ _ _ _ (le_refl _)]
    simp
  have e3 : (wire SE05X_NAD pcb inf).getD (SIZE_PROLOGUE + inf.length + 1) 0 = c % 256 := by
    have h4 : SIZE_PROLOGUE + inf.length + 1 = inf.length + 4 := by
      simp [SIZE_PROLOGUE]
      omega
    rw [hwdef, h4]
    show (inf ++ [c / 256, c % 256]).getD (inf.length + 1) 0 = c % 256
    rw [List.getD_append_right _ _ _ _ (by omega)]
    simp
  have e4 : halse_se05x_calculate_crc (SE05X_NAD :: pcb :: inf.length :: inf) = c := hC
  refine ⟨?_, ?_, ?_, rfl, rfl, ?_⟩
  · rw [crc_and_send_eq]
    rw [hwdef, ← hC]
    rfl
  · rw [e1, e2, e3, e4]
    omega
  · rw [wire_getD_two]
    simp [SIZE_INF_MAX]
    omega
  · rw [hwdef]
    show List.take inf.length (inf ++ [c / 256, c % 256]) = inf
    rw [List.take_left]

set_option maxRecDepth 8192 in
/-- Witness for C4 at PCB 0x00, INF `90 00`. -/
theorem C4_crc_round_trip_witness :
    ((halse_se05x_crc_and_send { rx := [], wr := [], sent := [] } initDev
        ([SE05X_NAD, 0x00, ([0x90, 0x00] : List Nat).length] ++ [0x90, 0x00])).2.2).txbuf =
      wire SE05X_NAD 0x00 [0x90, 0x00] ∧
    halse_se05x_calculate_crc
        ((wire SE05X_NAD 0x00 [0x90, 0x00]).take
          (SIZE_PROLOGUE + ([0x90, 0x00] : List Nat).length)) =
      (wire SE05X_NAD 0x00 [0x90, 0x00]).getD
          (SIZE_PROLOGUE + ([0x90, 0x00] : List Nat).length) 0 * 256 +
        (wire SE05X_NAD 0x00 [0x90, 0x00]).getD
          (SIZE_PROLOGUE + ([0x90, 0x00] : List Nat).length + 1) 0 ∧
    (wire SE05X_NAD 0x00 [0x90, 0x00]).getD 2 0 ≤ SIZE_INF_MAX ∧
    (wire SE05X_NAD 0x00 [0x90, 0x00]).getD 1 0 = 0x00 ∧
    (wire SE05X_NAD 0x00 [0x90, 0x00]).getD 2 0 = ([0x90, 0x00] : List Nat).length ∧
    ((wire SE05X_NAD 0x00 [0x90, 0x00]).drop 3).take
        ([0x90, 0x00] : List Nat).length = [0x90, 0x00] :=
  C4_crc_round_trip { rx := [], wr := [], sent := [] } initDev 0x00
    [0x90, 0x00] (by decide)

/-! ### Claim C7: the ATR rewrite -/

/-- The HB_LEN position exactly as the claim words it: the byte at
offset `8 + real[6] + real[8 + real[6]]`.  Written from the claim for
comparison with the code, which reads offset `9 + real[6] +
real[8 + real[6]]` instead. -/
def claim_hb_len (atr : List Nat) : Nat :=
  atr.getD (8 + atr.getD 6 0 + atr.getD (8 + atr.getD 6 0) 0) 0

/-- C7 counterexample: for the cached ATR
`00 00 00 00 00 00 00 00 00 10` the claim's HB_LEN (byte at offset 8)
is 0 ∈ [0,15], so the claim asserts get_atr succeeds and writes 9
bytes; the code reads HB_LEN = 16 at offset 9 and fails. -/
theorem C7_offset_counterexample :
    claim_hb_len [0, 0, 0, 0, 0, 0, 0, 0, 0, 16] = 0 ∧
    (0 : Nat) ≤ 15 ∧
    halse_se05x_get_atr [0, 0, 0, 0, 0, 0, 0, 0, 0, 16] = none := by
  decide

/-- C7 amended: HB_LEN is the byte at offset `9 + real[6] +
real[8 + real[6]]`.  With HB_LEN ≤ 15 (and the HB bytes present in the
cached ATR) get_atr writes exactly 9 + HB_LEN bytes: 0x3B, 0xF0|HB_LEN,
the fixed bytes 96 00 00 80 11 FE, the HB_LEN historical bytes, and a
TCK equal to the XOR of output bytes 1 through 7 + HB_LEN; with
HB_LEN > 15 it fails. -/
theorem C7_atr_rewrite (atr : List Nat) (a6 a8 hb : Nat)
    (ha6 : a6 = atr.getD 6 0) (ha8 : a8 = atr.getD (8 + a6) 0)
    (hhb : hb = atr.getD (9 + a6 + a8) 0) :
    (hb > 15 → halse_se05x_get_atr atr = none) ∧
    (hb ≤ 15 → 10 + a6 + a8 + hb ≤ atr.length →
      ∃ out, halse_se05x_get_atr atr = some out ∧
        out.length = 9 + hb ∧
        out.getD 0 0 = 0x3B ∧
        out.getD 1 0 = 0xF0 ||| hb ∧
        out.take 8 = [0x3B, 0xF0 ||| hb, 0x96, 0x00, 0x00, 0x80, 0x11, 0xFE] ∧
        (out.drop 8).take hb = (atr.drop (10 + a6 + a8)).take hb ∧
        out.getD (8 + hb) 0 =
          halse_se05x_calculate_xor ((out.drop 1).take (7 + hb))) := by
  subst ha6
  subst ha8
  subst hhb
  have hunf : halse_se05x_get_atr atr =
      (if atr.getD (9 + atr.getD 6 0 + atr.getD (8 + atr.getD 6 0) 0) 0 > 15 then
        none
      else
        some (([0x3B, 0xF0 ||| atr.getD (9 + atr.getD 6 0 + atr.getD (8 + atr.getD 6 0) 0) 0,
            0x96, 0x00, 0x00, 0x80, 0x11, 0xFE] ++
            (atr.drop (10 + atr.getD 6 0 + atr.getD (8 + atr.getD 6 0) 0)).take
              (atr.getD (9 + atr.getD 6 0 + atr.getD (8 + atr.getD 6 0) 0) 0)) ++
          [halse_se05x_calculate_xor
            (([0x3B, 0xF0 ||| atr.getD (9 + atr.getD 6 0 + atr.getD (8 + atr.getD 6 0) 0) 0,
              0x96, 0x00, 0x00, 0x80, 0x11, 0xFE] ++
              (atr.drop (10 + atr.getD 6 0 + atr.getD (8 + atr.getD 6 0) 0)).take
                (atr.getD (9 + atr.getD 6 0 + atr.getD (8 + atr.getD 6 0) 0) 0)).drop 1)])) := by
    unfold halse_se05x_get_atr
    dsimp only
    rw [show (1 + 5 : Nat) = 6 from rfl]
    rw [show (6 : Nat) + 1 + atr.getD 6 0 + 1 = 8 + atr.getD 6 0 from by omega]
    rw [show (8 : Nat) + atr.getD 6 0 + 1 + atr.getD (8 + atr.getD 6 0) 0 =
      9 + atr.getD 6 0 + atr.getD (8 + atr.getD 6 0) 0 from by omega]
    rw [show (9 : Nat) + atr.getD 6 0 + atr.getD (8 + atr.getD 6 0) 0 + 1 =
      10 + atr.getD 6 0 + atr.getD (8 + atr.getD 6 0) 0 from by omega]
  constructor
  · intro hgt
    rw [hunf, if_pos hgt]
  · intro hle hlen
    rw [hunf, if_neg (by omega)]
    set hb := atr.getD (9 + atr.getD 6 0 + atr.getD (8 + atr.getD 6 0) 0) 0 with hhb
    set hbb := (atr.drop (10 + atr.getD 6 0 + atr.getD (8 + atr.getD 6 0) 0)).take hb
      with hhbb
    have hlb : hbb.length = hb := by
      rw [hhbb, List.length_take, List.length_drop]
      omega
    refine ⟨_, rfl, ?_, rfl, rfl, ?_, ?_, ?_⟩
    · simp only [List.length_append, List.length_cons, List.length_nil, hlb]
      omega
    · have h := List.take_left
        ([0x3B, 0xF0 ||| hb, 0x96, 0x00, 0x00, 0x80, 0x11, 0xFE] : List Nat)
        (hbb ++ [halse_se05x_calculate_xor
          (([0x3B, 0xF0 ||| hb, 0x96, 0x00, 0x00, 0x80, 0x11, 0xFE] ++ hbb).drop 1)])
      rw [show ([0x3B, 0xF0 ||| hb, 0x96, 0x00, 0x00, 0x80, 0x11, 0xFE] :
        List Nat).length = 8 from rfl] at h
      rw [List.append_assoc]
      exact h
    · have hd := List.drop_left
        ([0x3B, 0xF0 ||| hb, 0x96, 0x00, 0x00, 0x80, 0x11, 0xFE] : List Nat)
        (hbb ++ [halse_se05x_calculate_xor
          (([0x3B, 0xF0 ||| hb, 0x96, 0x00, 0x00, 0x80, 0x11, 0xFE] ++ hbb).drop 1)])
      rw [show ([0x3B, 0xF0 ||| hb, 0x96, 0x00, 0x00, 0x80, 0x11, 0xFE] :
        List Nat).length = 8 from rfl] at hd
      rw [List.append_assoc, hd]
      have ht := List.take_left hbb [halse_se05x_calculate_xor
        (([0x3B, 0xF0 ||| hb, 0x96, 0x00, 0x00, 0x80, 0x11, 0xFE] ++ hbb).drop 1)]
      rw [hlb] at ht
      rw [ht, hhbb]
    · have hblen : (([0x3B, 0xF0 ||| hb, 0x96, 0x00, 0x00, 0x80, 0x11, 0xFE] ++ hbb) :
          List Nat).length = 8 + hb := by
        rw [List.length_append, hlb]
        rfl
      rw [show (8 : Nat) + hb = (([0x3B, 0xF0 ||| hb, 0x96, 0x00, 0x00, 0x80, 0x11, 0xFE] ++
        hbb) : List Nat).length from hblen.symm]
      rw [List.getD_append_right _ _ _ _ (le_refl _)]
      simp only [Nat.sub_self]
      have hdd : (([0x3B, 0xF0 ||| hb, 0x96, 0x00, 0x00, 0x80, 0x11, 0xFE] ++ hbb ++
          [halse_se05x_calculate_xor
            (([0x3B, 0xF0 ||| hb, 0x96, 0x00, 0x00, 0x80, 0x11, 0xFE] ++ hbb).drop 1)]) :
          List Nat).drop 1 =
          ([0xF0 ||| hb, 0x96, 0x00, 0x00, 0x80, 0x11, 0xFE] ++ hbb) ++
          [halse_se05x_calculate_xor
            (([0x3B, 0xF0 ||| hb, 0x96, 0x00, 0x00, 0x80, 0x11, 0xFE] ++ hbb).drop 1)] := rfl
      rw [hdd]
      have hplen : (([0xF0 ||| hb, 0x96, 0x00, 0x00, 0x80, 0x11, 0xFE] ++ hbb) :
          List Nat).length = 7 + hb := by
        rw [List.length_append, hlb]
        rfl
      have ht := List.take_left
        (([0xF0 ||| hb, 0x96, 0x00, 0x00, 0x80, 0x11, 0xFE] ++ hbb) : List Nat)
        [halse_se05x_calculate_xor
          (([0x3B, 0xF0 ||| hb, 0x96, 0x00, 0x00, 0x80, 0x11, 0xFE] ++ hbb).drop 1)]
      rw [hplen] at ht
      rw [ht]
      rfl

/-- Witness for the amended C7: the historical bytes
`4A 43 4F 50 34 20 41 54 50 4F` (HB_LEN = 10). -/
theorem C7_atr_rewrite_witness :
    (10 : Nat) ≤ 15 ∧
    (∃ out, halse_se05x_get_atr
        [0, 0, 0, 0, 0, 0, 0, 0, 0, 10,
         0x4A, 0x43, 0x4F, 0x50, 0x34, 0x20, 0x41, 0x54, 0x50, 0x4F] = some out ∧
      out.length = 9 + 10 ∧
      out.getD 0 0 = 0x3B ∧
      out.getD 1 0 = 0xF0 ||| 10 ∧
      out.take 8 = [0x3B, 0xF0 ||| 10, 0x96, 0x00, 0x00, 0x80, 0x11, 0xFE] ∧
      (out.drop 8).take 10 =
        (([0, 0, 0, 0, 0, 0, 0, 0, 0, 10,
           0x4A, 0x43, 0x4F, 0x50, 0x34, 0x20, 0x41, 0x54, 0x50, 0x4F] :
          List Nat).drop (10 + 0 + 0)).take 10 ∧
      out.getD (8 + 10) 0 =
        halse_se05x_calculate_xor ((out.drop 1).take (7 + 10))) :=
  ⟨by decide,
   (C7_atr_rewrite
      [0, 0, 0, 0, 0, 0, 0, 0, 0, 10,
       0x4A, 0x43, 0x4F, 0x50, 0x34, 0x20, 0x41, 0x54, 0x50, 0x4F]
      0 0 10 rfl rfl rfl).2 (by decide) (by decide)⟩

/-! ### The xfer write loop: a single unchained block -/

theorem xfer_write_single {env : Env} (dev : DevState) {tx : List Nat}
    (h1 : 1 ≤ tx.length) (h2 : tx.length ≤ 254) (hwr : env.wr = []) :
    ∃ env1 dev1, halse_se05x_xfer_write env dev tx = (0, env1, dev1) ∧
      env1.rx = env.rx ∧ env1.wr = [] := by
  have hsend : ∃ env1 dev1,
      halse_se05x_send_i_block env dev tx false = (0, env1, dev1) ∧
      env1.rx = env.rx ∧ env1.wr = [] := by
    unfold halse_se05x_send_i_block
    rw [if_neg (by unfold SIZE_INF_MAX; omega)]
    dsimp only
    rw [crc_and_send_eq]
    rw [hwr]
    dsimp only
    rw [if_neg (by simp)]
    exact ⟨_, _, rfl, rfl, rfl⟩
  obtain ⟨env1, dev1, hs, hrx1, hwr1⟩ := hsend
  unfold halse_se05x_xfer_write halse_se05x_xfer_writeF
  dsimp only
  have hmin : min SIZE_INF_MAX tx.length = tx.length := by
    unfold SIZE_INF_MAX
    omega
  rw [hmin, Nat.sub_self, List.take_length]
  rw [show decide (0 < (0 : Nat)) = false from rfl]
  rw [hs]
  dsimp only
  rw [if_neg (by simp)]
  exact ⟨env1, dev1, rfl, hrx1, hwr1⟩

/-! ### The xfer read loop over a chain of I-blocks -/

theorem i_pcb_props (ns more : Bool) :
    is_s_block_request (i_pcb ns more) = false ∧
    is_r_block_with_error (i_pcb ns more) = false ∧
    is_i_block (i_pcb ns more) = true ∧
    (((i_pcb ns more) >>> 5) &&& 1 == 1) = more := by
  cases ns <;> cases more <;> decide

theorem take_append_take (l m : List Nat) (cap : Nat) :
    ((l.take cap) ++ m).take cap = (l ++ m).take cap := by
  rw [List.take_append_eq_append_take, List.take_append_eq_append_take,
    List.take_take]
  have h1 : min cap cap = cap := by omega
  rw [h1]
  congr 1
  rw [List.length_take]
  congr 1
  omega

/-- The truncating copy of the read loop produces a prefix of the ideal
(unbounded) output. -/
theorem trunc_append (out inf : List Nat) (cap : Nat) (hout : out.length ≤ cap) :
    out ++ inf.take (if out.length + inf.length > cap then cap - out.length
      else inf.length) = (out ++ inf).take cap ∧
    (out ++ inf.take (if out.length + inf.length > cap then cap - out.length
      else inf.length)).length ≤ cap := by
  constructor
  · rw [List.take_append_eq_append_take, List.take_of_length_le hout]
    split
    · rfl
    · rw [List.take_length]
      rw [List.take_of_length_le (by omega)]
  · rw [List.length_append, List.length_take]
    split <;> omega

theorem wire_drop_take (nad pcb : Nat) (inf : List Nat) {n : Nat}
    (hn : n ≤ inf.length) :
    ((wire nad pcb inf).drop 3).take n = inf.take n := by
  obtain ⟨c, hC⟩ : ∃ c, halse_se05x_calculate_crc
      ([nad, pcb, inf.length] ++ inf) = c := ⟨_, rfl⟩
  have h1 : (wire nad pcb inf).drop 3 = inf ++ [c / 256, c % 256] := by
    rw [← hC]
    rfl
  rw [h1, List.take_append_of_le_length hn]

theorem xfer_read_chain : ∀ (script : List (Bool × List Nat)) (f : Nat)
    (env : Env) (dev : DevState) (cap : Nat) (out rest : List Nat),
    script ≠ [] →
    (∀ p ∈ script, (p.2).length ≤ 254) →
    env.rx = chainBytes script ++ rest →
    env.wr = [] →
    out.length ≤ cap →
    env.rx.length + 1 ≤ f →
    ∃ env' dev', halse_se05x_xfer_readF f env dev cap out =
      (0, true, (out ++ (script.map Prod.snd).flatten).take cap, env', dev') := by
  intro script
  induction script with
  | nil =>
    intro f env dev cap out rest hne _ _ _ _ _
    exact absurd rfl hne
  | cons p rest' ih =>
    obtain ⟨ns, inf⟩ := p
    intro f env dev cap out rest _ hlens hrx hwr hout hf
    have hinf : inf.length ≤ 254 := hlens (ns, inf) (List.mem_cons_self _ _)
    have hrx1 : env.rx = wire HOST_NAD (i_pcb ns (!rest'.isEmpty)) inf ++
        (chainBytes rest' ++ rest) := by
      rw [hrx]
      show chainBytes ((ns, inf) :: rest') ++ rest = _
      rw [chainBytes, List.append_assoc]
    have hprops := i_pcb_props ns (!rest'.isEmpty)
    have hrecv := recv_block_wire_plain dev hrx1 hinf hprops.1 hprops.2.1
    obtain ⟨f', rfl⟩ : ∃ f', f = f' + 1 := ⟨f - 1, by omega⟩
    have hlen2 : (if out.length + inf.length > cap then cap - out.length
        else inf.length) ≤ inf.length := by
      split <;> omega
    have htr := trunc_append out inf cap hout
    cases rest' with
    | nil =>
      have hstep : halse_se05x_xfer_read_step env dev cap out =
          .done 0 true ((out ++ inf).take cap)
            { env with rx := chainBytes [] ++ rest }
            { dev with rxbuf := wire HOST_NAD (i_pcb ns (!([] : List (Bool × List Nat)).isEmpty)) inf } := by
        unfold halse_se05x_xfer_read_step
        rw [hrecv]
        try dsimp only
        rw [if_neg (by simp)]
        rw [wire_getD_one]
        rw [if_neg (by rw [hprops.2.2.1]; simp)]
        rw [hprops.2.2.2]
        try dsimp only
        rw [wire_drop_take _ _ _ hlen2]
        rw [htr.1]
        simp
      unfold halse_se05x_xfer_readF
      rw [hstep]
      refine ⟨{ env with rx := chainBytes [] ++ rest },
        { dev with rxbuf := wire HOST_NAD (i_pcb ns (!([] : List (Bool × List Nat)).isEmpty)) inf },
        ?_⟩
      try dsimp only
      simp
    | cons q rest'' =>
      have hsendr : ∃ env3 dev3, halse_se05x_send_r_block
          { env with rx := chainBytes (q :: rest'') ++ rest }
          { dev with rxbuf := wire HOST_NAD (i_pcb ns (!(q :: rest'' : List (Bool × List Nat)).isEmpty)) inf }
          ((((i_pcb ns (!(q :: rest'' : List (Bool × List Nat)).isEmpty)) >>> 6) &&& 1) ^^^ 1) 0 =
          (0, env3, dev3) ∧ env3.rx = chainBytes (q :: rest'') ++ rest ∧
          env3.wr = [] := by
        unfold halse_se05x_send_r_block
        rw [crc_and_send_eq]
        dsimp only
        rw [hwr]
        exact ⟨_, _, rfl, rfl, rfl⟩
      obtain ⟨env3, dev3, hsr, hrx3, hwr3⟩ := hsendr
      have hstep : halse_se05x_xfer_read_step env dev cap out =
          .again ((out ++ inf).take cap) env3 dev3 := by
        unfold halse_se05x_xfer_read_step
        rw [hrecv]
        try dsimp only
        rw [if_neg (by simp)]
        rw [wire_getD_one]
        rw [if_neg (by rw [hprops.2.2.1]; simp)]
        rw [hprops.2.2.2]
        try dsimp only
        rw [wire_drop_take _ _ _ hlen2]
        rw [htr.1]
        rw [if_pos (by simp)]
        rw [hsr]
        try dsimp only
        rw [if_neg (by simp)]
      unfold halse_se05x_xfer_readF
      rw [hstep]
      try dsimp only
      have hflen : env3.rx.length + 1 ≤ f' := by
        rw [hrx3]
        have hlw : env.rx.length = (wire HOST_NAD (i_pcb ns
            (!(q :: rest'' : List (Bool × List Nat)).isEmpty)) inf).length +
            (chainBytes (q :: rest'') ++ rest).length := by
          rw [hrx1]
          simp
        rw [wire_length] at hlw
        omega
      obtain ⟨env', dev', hrec⟩ := ih f' env3 dev3 cap ((out ++ inf).take cap)
        rest (by simp) (fun p hp => hlens p (List.mem_cons_of_mem _ hp)) hrx3
        hwr3 (by rw [List.length_take]; omega) hflen
      rw [hrec]
      refine ⟨env', dev', ?_⟩
      rw [take_append_take, List.append_assoc]
      simp

/-! ### Claim C8: receive truncation is not an error -/

/-- C8: when the device's I-block chain carries more INF bytes than the
caller's rx capacity, halse_se05x_xfer copies only up to the capacity,
keeps acknowledging the chain, returns 0 and sets the returned rx
length to the capacity. -/
theorem C8_truncation (env : Env) (dev : DevState) (tx : List Nat)
    (script : List (Bool × List Nat)) (cap : Nat) (rest : List Nat)
    (htx1 : 1 ≤ tx.length) (htx2 : tx.length ≤ 254)
    (hs : script ≠ []) (hlens : ∀ p ∈ script, (p.2).length ≤ 254)
    (hsum : cap < ((script.map Prod.snd).flatten).length)
    (hrx : env.rx = chainBytes script ++ rest) (hwr : env.wr = []) :
    (halse_se05x_xfer env dev (some tx) false (some cap)).1 = 0 ∧
    (halse_se05x_xfer env dev (some tx) false (some cap)).2.1 = some cap ∧
    (halse_se05x_xfer env dev (some tx) false (some cap)).2.2.1 =
      ((script.map Prod.snd).flatten).take cap := by
  obtain ⟨env1, dev1, hw, hrx1, hwr1⟩ := xfer_write_single dev htx1 htx2 hwr
  obtain ⟨env', dev', hrd⟩ := xfer_read_chain script (env1.rx.length + 1) env1
    dev1 cap [] rest hs hlens (by rw [hrx1, hrx]) hwr1 (by simp) (le_refl _)
  have hx : halse_se05x_xfer env dev (some tx) false (some cap) =
      (0, some ((([] ++ (script.map Prod.snd).flatten).take cap).length),
       ([] ++ (script.map Prod.snd).flatten).take cap, env',
       halse_se05x_clear_buf dev') := by
    unfold halse_se05x_xfer
    rw [if_neg (by
      rintro (h | h | h | h)
      · exact absurd h (by simp)
      · rw [Option.getD_some] at h
        omega
      · simp at h
      · simp at h)]
    rw [show ((some tx).getD []) = tx from rfl]
    rw [hw]
    dsimp only
    rw [if_neg (by simp)]
    rw [show ((some cap).getD 0) = cap from rfl]
    unfold halse_se05x_xfer_read
    rw [hrd]
    rfl
  rw [hx]
  refine ⟨rfl, ?_, by simp⟩
  have hlen : (([] ++ (script.map Prod.snd).flatten).take cap).length = cap := by
    rw [List.nil_append, List.length_take]
    omega
  rw [hlen]

set_option maxRecDepth 8192 in
/-- Witness for C8: a single received I-block `90 00` against an rx
capacity of 1 byte. -/
theorem C8_truncation_witness :
    (halse_se05x_xfer
        { rx := chainBytes [(false, [0x90, 0x00])], wr := [], sent := [] }
        initDev (some [0x01]) false (some 1)).1 = 0 ∧
    (halse_se05x_xfer
        { rx := chainBytes [(false, [0x90, 0x00])], wr := [], sent := [] }
        initDev (some [0x01]) false (some 1)).2.1 = some 1 ∧
    (halse_se05x_xfer
        { rx := chainBytes [(false, [0x90, 0x00])], wr := [], sent := [] }
        initDev (some [0x01]) false (some 1)).2.2.1 =
      ((([(false, [0x90, 0x00])] : List (Bool × List Nat)).map
        Prod.snd).flatten).take 1 :=
  C8_truncation _ initDev [0x01] [(false, [0x90, 0x00])] 1 [] (by decide)
    (by decide) (by decide) (by decide) (by decide) rfl rfl

/-! ### Claim C1: a non-I-block in the read loop -/

set_option maxRecDepth 8192 in
/-- C1 (code defect): when the read loop of halse_se05x_xfer receives a
valid block that is not an I-block (here an R-block with PCB 0x80), the
C code logs an error and jumps to `end` without ever assigning `ret`,
so xfer returns 0 (success) and leaves `*rx_len` untouched, instead of
returning the non-zero error the specification requires. -/
theorem C1_non_i_block_returns_success :
    is_i_block 0x80 = false ∧
    (halse_se05x_xfer { rx := wire HOST_NAD 0x80 [], wr := [], sent := [] }
      initDev (some [0x01, 0x02]) false (some 4)).1 = 0 ∧
    (halse_se05x_xfer { rx := wire HOST_NAD 0x80 [], wr := [], sent := [] }
      initDev (some [0x01, 0x02]) false (some 4)).2.1 = some 4 := by
  decide

/-! ### Claim C9: the xfer sanity checks -/

set_option maxRecDepth 8192 in
/-- C9 counterexample: a zero rx capacity (a non-null rx-length pointer
holding 0) is not rejected: the exchange runs, reception is truncated
to zero bytes and xfer returns 0. -/
theorem C9_zero_capacity_not_rejected :
    (halse_se05x_xfer
        { rx := wire HOST_NAD 0x00 [0x90, 0x00], wr := [], sent := [] }
        initDev (some [0x01]) false (some 0)).1 = 0 ∧
    (halse_se05x_xfer
        { rx := wire HOST_NAD 0x00 [0x90, 0x00], wr := [], sent := [] }
        initDev (some [0x01]) false (some 0)).2.1 = some 0 := by
  decide

/-- C9 amended: halse_se05x_xfer rejects a null tx buffer, a zero tx
length, a null rx buffer, or a null rx-length pointer, returning -1
without touching the bus. -/
theorem C9_sanity_checks (env : Env) (dev : DevState) (tx : Option (List Nat))
    (rx_null : Bool) (rx_len : Option Nat)
    (h : tx = none ∨ tx = some [] ∨ rx_null = true ∨ rx_len = none) :
    halse_se05x_xfer env dev tx rx_null rx_len =
      (-1, rx_len, [], env, halse_se05x_clear_buf dev) := by
  unfold halse_se05x_xfer
  rcases h with h | h | h | h
  · rw [if_pos (Or.inl h)]
  · rw [if_pos (Or.inr (Or.inl (by rw [h]; rfl)))]
  · rw [if_pos (Or.inr (Or.inr (Or.inl h)))]
  · rw [if_pos (Or.inr (Or.inr (Or.inr h)))]

/-- Witness for the amended C9: a null tx buffer. -/
theorem C9_sanity_checks_witness :
    halse_se05x_xfer { rx := [], wr := [], sent := [] } initDev none false
        (some 4) =
      (-1, some 4, [], { rx := [], wr := [], sent := [] },
       halse_se05x_clear_buf initDev) :=
  C9_sanity_checks { rx := [], wr := [], sent := [] } initDev none false
    (some 4) (Or.inl rfl)
